import Mathlib

/-!
Shallow embedding of the EMTradingAgent repository (emta package) in Lean 4,
with theorems checking the natural-language specification against the code.

Source files embedded:
  * src/emta/utils/stocks.py        (get_market_code)
  * src/emta/models/trading.py      (AccountOverview, Position, Portfolio, AccountInfo)
  * src/emta/api/client.py          (APIClient constructor)
  * src/emta/auth/client.py         (AuthClient.login retry loop, logout)
  * src/emta/core/agent.py          (TradingAgent login/logout/get_account_info/place_order)

Python strings handled character-wise are modelled as List Char; machine
floats / Decimal values carry no arithmetic in the embedded paths, so they
are modelled as Rat.  Network traffic is an oracle input: each HTTP
exchange the code performs is a value drawn from an environment record.
-/

namespace Emta

/-! ## Python string primitives (List Char model) used by utils/stocks.py -/

/-- Python `s.startswith(p)`. -/
def pyStartswith (p s : List Char) : Bool :=
  p.isPrefixOf s

/-- Python `s.strip()`: drop leading and trailing whitespace. -/
def pyStrip (s : List Char) : List Char :=
  ((s.dropWhile Char.isWhitespace).reverse.dropWhile Char.isWhitespace).reverse

/-- Python `s.isdigit()`: non-empty and every character a digit. -/
def pyIsdigit (s : List Char) : Bool :=
  !s.isEmpty && s.all Char.isDigit

/-- Python `s.isalpha()`: non-empty and every character a letter. -/
def pyIsalpha (s : List Char) : Bool :=
  !s.isEmpty && s.all Char.isAlpha

/-- Python `s.upper()`. -/
def pyUpper (s : List Char) : List Char :=
  s.map Char.toUpper

/-- Python `s.zfill(n)`: left-pad with the zero digit up to width n. -/
def pyZfill (n : Nat) (s : List Char) : List Char :=
  List.replicate (n - s.length) '0' ++ s

/-! ## src/emta/utils/stocks.py -/

/-- Function `get_market_code` from src/emta/utils/stocks.py: strips the symbol, then
checks the Shanghai prefixes, the Shenzhen prefixes, the Beijing/NEEQ
leading digits, the digits-only Hong Kong rule (length at most 5, zero
padded), the all-alphabetic US rule, and otherwise returns "UNKNOWN". -/
def get_market_code (code0 : List Char) : List Char :=
  let code := pyStrip code0
  if ["600", "601", "603", "605", "688"].any (fun p => pyStartswith p.toList code) then
    "HA".toList
  else if ["000", "001", "002", "003", "300", "301"].any (fun p => pyStartswith p.toList code) then
    "SA".toList
  else if pyStartswith "8".toList code || pyStartswith "4".toList code then
    "BJ".toList
  else if pyIsdigit code && decide (code.length ≤ 5) then
    "HK".toList ++ pyZfill 5 code
  else if pyIsalpha code then
    "US:".toList ++ pyUpper code
  else
    "UNKNOWN".toList

example : get_market_code "600519".toList = "HA".toList := by decide
example : get_market_code "000001".toList = "SA".toList := by decide
example : get_market_code "00700".toList = "HK00700".toList := by decide
example : get_market_code "AAPL".toList = "US:AAPL".toList := by decide
example : get_market_code "00001".toList = "SA".toList := by decide
example : get_market_code "88888".toList = "BJ".toList := by decide
example : get_market_code "12".toList = "HK00012".toList := by decide
example : get_market_code "SH600000".toList = "UNKNOWN".toList := by decide

/-! ## src/emta/models/trading.py -/

/-- Dataclass `AccountOverview` from src/emta/models/trading.py (账户资金总览).
Numeric fields are vendor floats, modelled as Rat. -/
structure AccountOverview where
  Djzj : Rat
  Dryk : Rat
  Kqzj : Rat
  Kyzj : Rat
  Ljyk : Rat
  Money_type : String
  RMBZzc : Rat
  Zjye : Rat
  Zxsz : Rat
  Zzc : Rat
deriving DecidableEq

/-- Dataclass `Position` from src/emta/models/trading.py (持仓明细).
Decimal fields are modelled as Rat, int fields as Int; the `__post_init__`
string-to-number coercions are the out-of-scope JSON parsing step, so the
fields here hold the already-parsed values. -/
structure Position where
  Bz : String
  Cbjg : Rat
  Cbjgex : Rat
  Ckcb : Rat
  Ckcbj : Rat
  Ckyk : Rat
  Cwbl : Rat
  Djsl : Int
  Dqcb : Rat
  Dryk : Rat
  Drykbl : Rat
  Gddm : String
  Gfmcdj : Int
  Gfmrjd : Int
  Gfssmmce : Int
  Gfye : Int
  Jgbm : String
  Khdm : String
  Ksssl : Int
  Kysl : Int
  Ljyk : Rat
  Market : String
  Mrssc : Int
  Sssl : Int
  Szjsbs : Int
  Ykbl : Rat
  Zjzh : String
  Zqdm : String
  Zqlx : String
  Zqlxmc : String
  Zqmc : String
  Zqsl : Int
  Ztmc : Int
  Ztmr : Int
  Zxjg : Rat
  Zxsz : Rat
  zqzwqc : String
  zxsznew : Rat

/-- Dataclass `Portfolio` from src/emta/models/trading.py: an ordered list of
positions, extended only through `add_position`. -/
structure Portfolio where
  positions : List Position := []

/-- Method `Portfolio.add_position`: append one position. -/
def Portfolio.add_position (pf : Portfolio) (p : Position) : Portfolio :=
  { pf with positions := pf.positions ++ [p] }

/-- TypedDict `AccountInfo` from src/emta/models/trading.py. -/
structure AccountInfo where
  username : String
  account_overview : AccountOverview
  portfolio : Portfolio

/-- Enum `OrderType` from src/emta/models/trading.py. -/
inductive OrderType where
  | BUY
  | SELL
deriving DecidableEq

/-! ## Vendor JSON for the asset/position query

One element of the vendor `Data` array, as consumed by `TradingAgent.login`
(src/emta/core/agent.py): each account field is read with `data.get(key,
default)`, so every field is optional here; `positions` likewise defaults
to the empty list. -/

/-- One element of the vendor `Data` array of the asset/position response. -/
structure AssetData where
  Djzj : Option Rat := none
  Dryk : Option Rat := none
  Kqzj : Option Rat := none
  Kyzj : Option Rat := none
  Ljyk : Option Rat := none
  Money_type : Option String := none
  RMBZzc : Option Rat := none
  Zjye : Option Rat := none
  Zxsz : Option Rat := none
  Zzc : Option Rat := none
  positions : Option (List Position) := none

/-- The asset/position response JSON: `Data` is `none` when the `"Data"` key
is absent from the payload. -/
structure AssetPosResponse where
  Data : Option (List AssetData) := none

/-! ## src/emta/api/client.py — APIClient -/

/-- Class `APIClient` from src/emta/api/client.py: the constructor stores the HTTP
session (immaterial here) and the `validate_key` argument, whose Python type
is `str | None` with default `None`. -/
structure APIClient where
  validate_key : Option String := none
deriving DecidableEq

/-- Typed errors of the package (src/emta/models/exceptions.py). -/
inductive EmtaError where
  | loginError
  | validateKeyError
  | tradingError
deriving DecidableEq

/-- Constructor `APIClient.__init__` from src/emta/api/client.py, rendered as a fallible
constructor so the spec's fail-fast requirement is statable: the source body
performs no check at all, it unconditionally stores the argument and
succeeds. -/
def APIClient.init (validate_key : Option String := none) : Except EmtaError APIClient :=
  .ok { validate_key := validate_key }

/-- A constructor following the spec's words, for comparison with the source
constructor `APIClient.init`: "Constructed only with a non-empty validation
token (constructor fails fast with ValidateKeyError otherwise)". -/
def APIClientInitSpec (validate_key : Option String := none) : Except EmtaError APIClient :=
  match validate_key with
  | none => .error .validateKeyError
  | some k => if k = "" then .error .validateKeyError else .ok { validate_key := some k }

/-! ## src/emta/auth/client.py — AuthClient.login

The network is an oracle: `transport i` is the outcome of the `i`-th POST to
the login endpoint (transport fault / HTTP error, or a parsed JSON body with
its `Status` and `Message`); `captcha n` is the outcome of the `n`-th call to
`_get_captcha` (generation 0 happens in `AuthClient.__init__`, generation
`n+1` is the refresh before retry attempt `n+1`); `scrape i` is the outcome
of `_get_validate_key` when invoked after a `Status == 0` response to
attempt `i`. -/

/-- Outcome of one POST to the login endpoint.  `fault` covers
`httpx.RequestError`, a `raise_for_status` failure, and any other exception
the generic handler catches; `resp` is a parsed JSON body. -/
inductive TransportResult where
  | fault
  | resp (status : Int) (message : String)
deriving DecidableEq

/-- Oracle for the network traffic of one `AuthClient.login` call. -/
structure LoginEnv where
  transport : Nat → TransportResult
  captcha : Nat → Option (Nat × String)
  scrape : Nat → Option String

/-- How `AuthClient.login` ends.  `ok` is the `(True, result)` return after
a successful validate-key scrape; `rejected` is the `(False, result)` return
on `Status != 0`; `wrappedErr i` is the `LoginError` raised after the loop
exhausts all attempts, wrapping the error of attempt `i` (the last one);
`captchaErr n` is the `LoginError` raised by `_get_captcha` itself during
the `n`-th captcha generation. -/
inductive LoginOutcome where
  | ok (validateKey : String)
  | rejected (message : String)
  | wrappedErr (lastFailAttempt : Nat)
  | captchaErr (genIdx : Nat)
deriving DecidableEq

/-- Observable trace of one `AuthClient.login` call: its outcome, how many
times the login endpoint was POSTed, and the captcha pair each attempt
submitted, in order. -/
structure LoginTrace where
  outcome : LoginOutcome
  transportCalls : Nat
  captchaUsed : List (Nat × String)
deriving DecidableEq

/-- The `for attempt in range(max_retries + 1)` loop body of
`AuthClient.login` (src/emta/auth/client.py).  `i` is the current attempt
index, `cap` the captcha pair held in `self.random_code`/`self.identify_code`,
and `fuel` the number of attempts the loop may still run (initially
`maxRetries + 1`).  A `Status == 0` response leads to `_get_validate_key`;
its failure is caught by the generic `except Exception` handler and treated
like a transport fault (retry with captcha refresh).  A `Status != 0`
response returns immediately.  On a retryable failure with attempts left
the captcha is refreshed (`_get_captcha`, whose own failure raises
`LoginError` at once); with no attempts left the loop ends and the last
error is raised wrapped as `LoginError`. -/
def loginGo (env : LoginEnv) (cap : Nat × String) (i : Nat) : Nat → LoginTrace
  | 0 => { outcome := .wrappedErr i, transportCalls := 0, captchaUsed := [] }
  | fuel + 1 =>
    let retryPath : LoginTrace :=
      if fuel = 0 then
        { outcome := .wrappedErr i, transportCalls := 1, captchaUsed := [cap] }
      else
        match env.captcha (i + 1) with
        | none => { outcome := .captchaErr (i + 1), transportCalls := 1, captchaUsed := [cap] }
        | some cap2 =>
          let rest := loginGo env cap2 (i + 1) fuel
          { outcome := rest.outcome,
            transportCalls := 1 + rest.transportCalls,
            captchaUsed := cap :: rest.captchaUsed }
    match env.transport i with
    | .fault => retryPath
    | .resp status message =>
      if status = 0 then
        match env.scrape i with
        | some key => { outcome := .ok key, transportCalls := 1, captchaUsed := [cap] }
        | none => retryPath
      else
        { outcome := .rejected message, transportCalls := 1, captchaUsed := [cap] }

/-- Function `AuthClient.login` end to end: `env.captcha 0` models the `_get_captcha`
call in `AuthClient.__init__` (whose failure raises before any attempt), and
the loop runs with `max_retries + 1` available attempts. -/
def authLoginTrace (env : LoginEnv) (maxRetries : Nat) : LoginTrace :=
  match env.captcha 0 with
  | none => { outcome := .captchaErr 0, transportCalls := 0, captchaUsed := [] }
  | some cap0 => loginGo env cap0 0 (maxRetries + 1)

/-- Method `AuthClient.logout`: clears `validate_key`, nothing else; no network. -/
def authLogout (_validate_key : Option String) : Option String :=
  none

/-! ## src/emta/core/agent.py — TradingAgent -/

/-- The mutable state of a `TradingAgent` (plus the `validate_key` of its
owned `AuthClient` and the `api_client` attribute, absent until the first
successful authentication assigns it). -/
structure AgentState where
  username : Option String := none
  password : Option String := none
  is_logged_in : Bool := false
  account_info : List AccountInfo := []
  auth_validate_key : Option String := none
  api_client : Option APIClient := none

/-- Python truthiness test used on credential strings: `None` and the empty
string are falsy. -/
def pyFalsyStr : Option String → Bool
  | none => true
  | some s => s.isEmpty

/-- Python `a or b` on optional credential strings. -/
def pyOrStr (a b : Option String) : Option String :=
  if pyFalsyStr a then b else a

/-- The `AccountOverview(...)` construction inside `TradingAgent.login`:
every numeric field is read with `data.get(key, 0)` and the currency tag
with `data.get("Money_type", "")`. -/
def buildOverview (d : AssetData) : AccountOverview :=
  { Djzj := d.Djzj.getD 0
    Dryk := d.Dryk.getD 0
    Kqzj := d.Kqzj.getD 0
    Kyzj := d.Kyzj.getD 0
    Ljyk := d.Ljyk.getD 0
    Money_type := d.Money_type.getD ""
    RMBZzc := d.RMBZzc.getD 0
    Zjye := d.Zjye.getD 0
    Zxsz := d.Zxsz.getD 0
    Zzc := d.Zzc.getD 0 }

/-- The portfolio construction inside `TradingAgent.login`: a fresh
`Portfolio()` receives `add_position` for each element of
`data.get("positions", [])` in order. -/
def buildPortfolio (d : AssetData) : Portfolio :=
  (d.positions.getD []).foldl (fun pf p => pf.add_position p) { positions := [] }

/-- One `account_info` entry built by `TradingAgent.login` for one element
of the vendor `Data` array. -/
def buildAccountInfo (login_username : String) (d : AssetData) : AccountInfo :=
  { username := login_username
    account_overview := buildOverview d
    portfolio := buildPortfolio d }

/-- Oracle for everything `TradingAgent.login` does after authenticating:
the result of the asset/position query.  `Except.error` is any exception
that call raises (e.g. `TradingError` on a non-200 response). -/
structure LoginWorld where
  auth : LoginEnv
  assetPos : Except EmtaError AssetPosResponse

/-- Modelled from the spec: `APIClient.get_asset_and_position`, the asset
query method `TradingAgent.login` and the tests invoke, has no definition
under src (the API client defines it as `query_asset_and_position_v1`);
per spec 4.4 it performs the authenticated asset/position POST and returns
the response JSON, or raises on failure — here that exchange is the
`assetPos` oracle value. -/
def get_asset_and_position (w : LoginWorld) : Except EmtaError AssetPosResponse :=
  w.assetPos

/-- Method `TradingAgent.login` from src/emta/core/agent.py.  Returns the new agent
state and the boolean result.  Mirrors the source: merge credentials with
Python `or` and fail fast (False, nothing touched) when either is falsy;
store the merged credentials; run `AuthClient.login`; on `(True, _)` set
`is_logged_in`, build the `APIClient` from the auth client's
`validate_key`, query assets/positions and append one entry per element of
the `Data` array (no `"Data"` key: nothing appended); on `(False, _)` just
return False; any exception lands in the `except` branch which sets
`is_logged_in := False` and returns False. -/
def TradingAgent.login (st : AgentState) (username password : Option String)
    (maxRetries : Nat) (w : LoginWorld) : AgentState × Bool :=
  let login_username := pyOrStr username st.username
  let login_password := pyOrStr password st.password
  if pyFalsyStr login_username || pyFalsyStr login_password then
    (st, false)
  else
    let st := { st with username := login_username, password := login_password }
    match (authLoginTrace w.auth maxRetries).outcome with
    | .ok key =>
      -- success branch: is_logged_in := True, then hydration inside the try
      let st := { st with is_logged_in := true, auth_validate_key := some key }
      match APIClient.init (some key) with
      | .error _ => ({ st with is_logged_in := false }, false)
      | .ok client =>
        let st := { st with api_client := some client }
        match get_asset_and_position w with
        | .error _ => ({ st with is_logged_in := false }, false)
        | .ok asset_pos =>
          match asset_pos.Data with
          | none => (st, true)
          | some entries =>
            let lu := login_username.getD ""
            ({ st with account_info :=
                entries.foldl (fun acc d => acc ++ [buildAccountInfo lu d]) st.account_info },
             true)
    | .rejected _ => (st, false)
    | .wrappedErr _ => ({ st with is_logged_in := false }, false)
    | .captchaErr _ => ({ st with is_logged_in := false }, false)

/-- Method `TradingAgent.logout`: sets `is_logged_in := False`, empties
`account_info`, and delegates to `AuthClient.logout` which clears
`validate_key`.  Purely local, no network. -/
def TradingAgent.logout (st : AgentState) : AgentState :=
  { st with is_logged_in := false
            account_info := []
            auth_validate_key := authLogout st.auth_validate_key }

/-- Result of `TradingAgent.get_account_info`: the empty list `[]`, or the
backward-compatibility dict for the first account. -/
inductive AccountInfoResult where
  | empty
  | dict (username : String) (account_balance : Rat) (portfolio : Portfolio)

/-- Method `TradingAgent.get_account_info`: returns `[]` when not logged in; the dict
built from the first `account_info` entry when one exists (the
`account_overview` truthiness test in the source is always true for a
dataclass instance, so the balance is always its `Zjye`); `[]` otherwise. -/
def TradingAgent.get_account_info (st : AgentState) : AccountInfoResult :=
  if !st.is_logged_in then
    .empty
  else
    match st.account_info with
    | [] => .empty
    | first_account :: _ =>
      .dict first_account.username first_account.account_overview.Zjye
        first_account.portfolio

/-- Vendor response to an order submission, with the trade date (`Wtrq`)
and sequence number (`Wtbh`) the source's inline comment says make up the
composite order identifier. -/
structure CreateOrderResp where
  Status : Int := 0
  Message : String := ""
  Wtrq : String := ""
  Wtbh : String := ""
deriving DecidableEq

/-- Method `TradingAgent.place_order` from src/emta/core/agent.py.  `createOrderResp`
is the vendor response to `create_order` (only logged by the source).
Guard: not logged in or falsy `validate_key` returns `None`.  Otherwise the
market code is resolved, the order submitted, and — despite the inline
comment documenting the `trade-date_sequence-number` composite format — the
source then sets `order_id = ""` and returns it. -/
def TradingAgent.place_order (st : AgentState) (stock_code : List Char)
    (_trade_type : OrderType) (_amount : Int) (_price : Rat)
    (_createOrderResp : CreateOrderResp) : Option String :=
  if !st.is_logged_in || pyFalsyStr st.auth_validate_key then
    none
  else
    let _market := get_market_code stock_code
    let order_id := ""
    some order_id

/-! ## Helper lemmas -/

/-- The per-entry `account_info.append` loop in `TradingAgent.login`
appends, in order, one built entry per element of the `Data` array. -/
theorem foldl_append_eq_map (f : AssetData → AccountInfo) :
    ∀ (l : List AssetData) (acc : List AccountInfo),
      l.foldl (fun a d => a ++ [f d]) acc = acc ++ l.map f
  | [], acc => by simp
  | d :: l, acc => by
    simp only [List.foldl_cons, List.map_cons]
    rw [foldl_append_eq_map f l]
    simp

/-- A digit character is not alphabetic. -/
theorem char_isDigit_not_isAlpha (c : Char) (h : c.isDigit = true) : c.isAlpha = false := by
  have e48 : (UInt32.toBitVec 48).toNat = 48 := rfl
  have e57 : (UInt32.toBitVec 57).toNat = 57 := rfl
  have e65 : (UInt32.toBitVec 65).toNat = 65 := rfl
  have e90 : (UInt32.toBitVec 90).toNat = 90 := rfl
  have e97 : (UInt32.toBitVec 97).toNat = 97 := rfl
  have e122 : (UInt32.toBitVec 122).toNat = 122 := rfl
  simp only [Char.isDigit, Char.isAlpha, Char.isUpper, Char.isLower, Bool.and_eq_true,
    decide_eq_true_eq, ge_iff_le, Bool.or_eq_false_iff, Bool.and_eq_false_iff,
    decide_eq_false_iff_not, not_le, Char.le_def, Char.lt_def, UInt32.le_def, UInt32.lt_def,
    BitVec.le_def, BitVec.lt_def, e48, e57, e65, e90, e97, e122] at *
  omega

/-! ## Claim theorems -/

/-- C1: counterexample.  The Trading API Client constructor does not fail
fast on an absent or empty validation token: constructing with
`validate_key=None` or `validate_key=""` succeeds and yields a client
holding no usable token, while the constructor the spec describes rejects
both with `ValidateKeyError`. -/
theorem apiclient_init_accepts_missing_token :
    APIClient.init none = .ok { validate_key := none }
    ∧ APIClient.init (some "") = .ok { validate_key := some "" }
    ∧ APIClientInitSpec none = .error .validateKeyError
    ∧ APIClientInitSpec (some "") = .error .validateKeyError := by
  refine ⟨rfl, rfl, rfl, ?_⟩
  simp [APIClientInitSpec]

/-- C1 (amended): `APIClient.__init__` performs no validation of its token
argument at all: for every value, including absent and empty tokens, the
construction succeeds and stores the argument unchanged, so an APIClient
holding an empty or missing validation token can be created. -/
theorem apiclient_init_stores_any_token (vk : Option String) :
    APIClient.init vk = .ok { validate_key := vk } := rfl

/-- C3: a login response whose JSON `Status` is non-zero makes
`AuthClient.login` return failure immediately, carrying the vendor's
message, after exactly one POST to the login endpoint (the single captcha
pair generated at construction time): credential rejection is terminal and
never retried, for any configured retry maximum. -/
theorem auth_login_rejected_terminal (env : LoginEnv) (maxRetries : Nat)
    (c0 : Nat × String) (s : Int) (m : String)
    (hcap : env.captcha 0 = some c0)
    (hresp : env.transport 0 = .resp s m)
    (hs : s ≠ 0) :
    authLoginTrace env maxRetries
      = { outcome := .rejected m, transportCalls := 1, captchaUsed := [c0] } := by
  unfold authLoginTrace
  rw [hcap]
  unfold loginGo
  rw [hresp]
  simp [hs]

/-- Concrete oracle for the C3 witness: the vendor rejects the credentials
on the very first attempt. -/
def envRejected : LoginEnv :=
  { transport := fun _ => .resp 5 "wrong password"
    captcha := fun n => some (n, "abcd")
    scrape := fun _ => some "VK" }

/-- C3 witness: concrete rejected run with the default retry maximum. -/
theorem auth_login_rejected_terminal_witness :
    authLoginTrace envRejected 3
      = { outcome := .rejected "wrong password", transportCalls := 1,
          captchaUsed := [(0, "abcd")] } :=
  auth_login_rejected_terminal envRejected 3 (0, "abcd") 5 "wrong password"
    rfl rfl (by decide)

/-- A logged-in agent state, as left by a successful login. -/
def stLoggedIn : AgentState :=
  { username := some "user"
    password := some "pw"
    is_logged_in := true
    account_info := []
    auth_validate_key := some "VK"
    api_client := some { validate_key := some "VK" } }

/-- C5: at the failing input — a logged-in agent whose order submission the
vendor accepts (`Status` 0) echoing trade date "20240520" and sequence
number "130662" — `place_order` does not return the composite identifier
"20240520_130662": the source sets `order_id = ""` and returns the empty
string for every accepted submission. -/
theorem place_order_returns_empty_id :
    TradingAgent.place_order stLoggedIn "600519".toList .BUY 100 (1700 : Rat)
        { Status := 0, Message := "", Wtrq := "20240520", Wtbh := "130662" } = some ""
    ∧ some "" ≠ some "20240520_130662" := by
  exact ⟨rfl, by decide⟩

/-- C7: `logout` is a total function of the local state (no network call,
always succeeds); it leaves the agent not logged in, clears the validation
token, makes `get_account_info` return the empty result, and is idempotent:
a second `logout` leaves exactly the state of the first. -/
theorem logout_clears_and_idempotent (st : AgentState) :
    (TradingAgent.logout st).is_logged_in = false
    ∧ (TradingAgent.logout st).auth_validate_key = none
    ∧ TradingAgent.get_account_info (TradingAgent.logout st) = .empty
    ∧ TradingAgent.logout (TradingAgent.logout st) = TradingAgent.logout st :=
  ⟨rfl, rfl, rfl, rfl⟩

/-- C10: for a logged-in agent whose `account_info` list is non-empty,
`get_account_info` returns the dict describing only the first entry — its
username, the `Zjye` balance of its overview, and its portfolio — whatever
further accounts the list holds. -/
theorem get_account_info_first_entry_only (st : AgentState) (a : AccountInfo)
    (rest : List AccountInfo) (hlog : st.is_logged_in = true)
    (hacc : st.account_info = a :: rest) :
    TradingAgent.get_account_info st
      = .dict a.username a.account_overview.Zjye a.portfolio := by
  simp [TradingAgent.get_account_info, hlog, hacc]

/-- First concrete hydrated account for the C10 witness. -/
def accountA : AccountInfo :=
  { username := "alice"
    account_overview := { buildOverview {} with Zjye := 42 }
    portfolio := {} }

/-- Second concrete hydrated account for the C10 witness; never exposed. -/
def accountB : AccountInfo :=
  { username := "bob"
    account_overview := { buildOverview {} with Zjye := 7 }
    portfolio := {} }

/-- A logged-in agent holding two hydrated accounts. -/
def stTwoAccounts : AgentState :=
  { is_logged_in := true, account_info := [accountA, accountB] }

/-- C10 witness: with two hydrated accounts, only the first (alice, balance
42) is exposed. -/
theorem get_account_info_first_entry_only_witness :
    TradingAgent.get_account_info stTwoAccounts = .dict "alice" 42 {} :=
  get_account_info_first_entry_only stTwoAccounts accountA [accountB] rfl rfl

/-- Retry loop, success case: with captcha generation always succeeding, if
the first `k` submissions starting at attempt `i` fault, the next one gets
`Status` 0 and the token scrape succeeds, then the loop returns success
after exactly `k + 1` POSTs, attempt `i + j` submitting the `(i + j)`-th
generated captcha pair. -/
theorem loginGo_success (env : LoginEnv) (cap : Nat → Nat × String) (msg key : String)
    (hcap : ∀ n, env.captcha n = some (cap n)) :
    ∀ (k i fuel : Nat), k < fuel →
      (∀ j, j < k → env.transport (i + j) = .fault) →
      env.transport (i + k) = .resp 0 msg →
      env.scrape (i + k) = some key →
      loginGo env (cap i) i fuel =
        { outcome := .ok key, transportCalls := k + 1,
          captchaUsed := (List.range' i (k + 1)).map cap } := by
  intro k
  induction k with
  | zero =>
    intro i fuel hfuel hfault hsucc hscrape
    obtain ⟨f, rfl⟩ : ∃ f, fuel = f + 1 := ⟨fuel - 1, by omega⟩
    unfold loginGo
    rw [show i + 0 = i from rfl] at hsucc hscrape
    rw [hsucc]
    simp [hscrape]
  | succ k ih =>
    intro i fuel hfuel hfault hsucc hscrape
    obtain ⟨f, rfl⟩ : ∃ f, fuel = f + 1 := ⟨fuel - 1, by omega⟩
    have hf0 : env.transport i = .fault := by
      have h := hfault 0 (Nat.succ_pos k)
      rwa [show i + 0 = i from rfl] at h
    have hfz : f ≠ 0 := by omega
    have hrec := ih (i + 1) f (by omega)
      (fun j hj => by
        have h := hfault (j + 1) (by omega)
        rwa [show i + (j + 1) = i + 1 + j by omega] at h)
      (by rwa [show i + (k + 1) = i + 1 + k by omega] at hsucc)
      (by rwa [show i + (k + 1) = i + 1 + k by omega] at hscrape)
    unfold loginGo
    rw [hf0]
    simp only [hfz, if_false, hcap (i + 1), hrec]
    have e2 : 1 + (k + 1) = k + 1 + 1 := by omega
    rw [e2, show List.range' i (k + 1 + 1) = i :: List.range' (i + 1) (k + 1) from
      List.range'_succ i (k + 1) 1, List.map_cons]

/-- Retry loop, exhaustion case: with captcha generation succeeding and
every submission faulting, the loop spends all its attempts and ends with
the `LoginError` wrapping the last attempt's error. -/
theorem loginGo_exhaust (env : LoginEnv) (cap : Nat → Nat × String)
    (hcap : ∀ n, env.captcha n = some (cap n))
    (hfault : ∀ j, env.transport j = .fault) :
    ∀ (fuel i : Nat), 0 < fuel →
      loginGo env (cap i) i fuel =
        { outcome := .wrappedErr (i + fuel - 1), transportCalls := fuel,
          captchaUsed := (List.range' i fuel).map cap } := by
  intro fuel
  induction fuel with
  | zero => intro i h; omega
  | succ f ih =>
    intro i _
    match f, ih with
    | 0, _ =>
      unfold loginGo
      rw [hfault i]
      simp
    | f + 1, ih =>
      have hrec := ih (i + 1) (by omega)
      unfold loginGo
      rw [hfault i]
      have hfz : f + 1 ≠ 0 := by omega
      simp only [hfz, if_false, hcap (i + 1), hrec]
      have e1 : i + 1 + (f + 1) - 1 = i + (f + 1 + 1) - 1 := by omega
      have e2 : 1 + (f + 1) = f + 1 + 1 := by omega
      rw [e1, e2, show List.range' i (f + 1 + 1) = i :: List.range' (i + 1) (f + 1) from
        List.range'_succ i (f + 1) 1, List.map_cons]

/-- C2: retry policy of `AuthClient.login`.  With a configured maximum of
`maxRetries` retries (default 3) and any fixed delay, if the transport
faults on the first `k` submissions (`k ≤ maxRetries`, i.e. success on
attempt `N = k + 1` within the allowed attempts) and the next submission
succeeds, then login returns success, the login endpoint was POSTed exactly
`N` times, and attempt `j` submitted the `j`-th freshly generated captcha
pair (generation 0 at construction, a regeneration before every retry).
Moreover, for any oracle whose every submission faults, login raises the
last transport error wrapped as `LoginError` after spending all
`maxRetries + 1` attempts. -/
theorem auth_login_retry_policy (env : LoginEnv) (maxRetries k : Nat)
    (cap : Nat → Nat × String) (msg key : String)
    (hcap : ∀ n, env.captcha n = some (cap n))
    (hk : k ≤ maxRetries)
    (hfault : ∀ j, j < k → env.transport j = .fault)
    (hsucc : env.transport k = .resp 0 msg)
    (hscrape : env.scrape k = some key) :
    ((authLoginTrace env maxRetries).outcome = .ok key
      ∧ (authLoginTrace env maxRetries).transportCalls = k + 1
      ∧ (authLoginTrace env maxRetries).captchaUsed = (List.range (k + 1)).map cap)
    ∧ ∀ env2 : LoginEnv, (∀ n, env2.captcha n = some (cap n)) →
        (∀ j, env2.transport j = .fault) →
        (authLoginTrace env2 maxRetries).outcome = .wrappedErr maxRetries
        ∧ (authLoginTrace env2 maxRetries).transportCalls = maxRetries + 1 := by
  constructor
  · have hmain : authLoginTrace env maxRetries =
        { outcome := .ok key, transportCalls := k + 1,
          captchaUsed := (List.range' 0 (k + 1)).map cap } := by
      unfold authLoginTrace
      rw [hcap 0]
      exact loginGo_success env cap msg key hcap k 0 (maxRetries + 1) (by omega)
        (fun j hj => by rw [Nat.zero_add]; exact hfault j hj)
        (by rw [Nat.zero_add]; exact hsucc)
        (by rw [Nat.zero_add]; exact hscrape)
    rw [hmain, List.range_eq_range']
    exact ⟨rfl, rfl, rfl⟩
  · intro env2 hcap2 hfault2
    have hmain : authLoginTrace env2 maxRetries =
        { outcome := .wrappedErr (0 + (maxRetries + 1) - 1), transportCalls := maxRetries + 1,
          captchaUsed := (List.range' 0 (maxRetries + 1)).map cap } := by
      unfold authLoginTrace
      rw [hcap2 0]
      exact loginGo_exhaust env2 cap hcap2 hfault2 (maxRetries + 1) 0 (by omega)
    rw [hmain]
    exact ⟨by simp, rfl⟩

/-- Concrete oracle for the C2 witness, success part: the first two
submissions fault, the third succeeds. -/
def envRetry : LoginEnv :=
  { transport := fun i => if i < 2 then .fault else .resp 0 "ok"
    captcha := fun n => some (n, "code")
    scrape := fun _ => some "VKEY" }

/-- Concrete oracle for the C2 witness, exhaustion part: every submission
faults. -/
def envExhaust : LoginEnv :=
  { transport := fun _ => .fault
    captcha := fun n => some (n, "code")
    scrape := fun _ => some "VKEY" }

/-- C2 witness: with the default maximum of 3 retries, faults on the first
two submissions and success on the third give success, exactly 3 POSTs and
the captcha pairs of generations 0, 1 and 2; the all-fault oracle ends with
the wrapped last error after all 4 attempts. -/
theorem auth_login_retry_policy_witness :
    (authLoginTrace envRetry 3).outcome = .ok "VKEY"
    ∧ (authLoginTrace envRetry 3).transportCalls = 3
    ∧ (authLoginTrace envRetry 3).captchaUsed = [(0, "code"), (1, "code"), (2, "code")]
    ∧ (authLoginTrace envExhaust 3).outcome = .wrappedErr 3
    ∧ (authLoginTrace envExhaust 3).transportCalls = 4 := by
  have h := auth_login_retry_policy envRetry 3 2 (fun n => (n, "code")) "ok" "VKEY"
    (fun n => rfl) (by omega)
    (fun j hj => by simp [envRetry, hj])
    (by decide) rfl
  obtain ⟨⟨ho, ht, hc⟩, hrest⟩ := h
  have h2 := hrest envExhaust (fun n => rfl) (fun j => rfl)
  exact ⟨ho, ht, by rw [hc]; decide, h2.1, h2.2⟩

/-- C4: if authentication succeeds but the post-login hydration raises —
here, the asset/position query raises any typed error — then
`TradingAgent.login` returns False, leaves `is_logged_in` false, leaves the
account list exactly as before, and `get_account_info` reports the empty
not-logged-in result: no partial session state is observable. -/
theorem login_hydration_exception_clean (st : AgentState) (u p : Option String)
    (maxRetries : Nat) (w : LoginWorld) (key : String) (e : EmtaError)
    (hcu : pyFalsyStr (pyOrStr u st.username) = false)
    (hcp : pyFalsyStr (pyOrStr p st.password) = false)
    (hauth : (authLoginTrace w.auth maxRetries).outcome = .ok key)
    (hfail : w.assetPos = .error e) :
    (TradingAgent.login st u p maxRetries w).2 = false
    ∧ (TradingAgent.login st u p maxRetries w).1.is_logged_in = false
    ∧ TradingAgent.get_account_info (TradingAgent.login st u p maxRetries w).1 = .empty
    ∧ (TradingAgent.login st u p maxRetries w).1.account_info = st.account_info := by
  unfold TradingAgent.login
  simp only [hcu, hcp, Bool.or_self, Bool.or_false, Bool.false_or, if_false, hauth,
    get_asset_and_position, hfail, APIClient.init]
  exact ⟨rfl, rfl, rfl, rfl⟩

/-- Oracle with an immediately successful authentication. -/
def envOkFirst : LoginEnv :=
  { transport := fun _ => .resp 0 "ok"
    captcha := fun n => some (n, "code")
    scrape := fun _ => some "VK" }

/-- World for the C4 witness: authentication succeeds, the asset query
raises `TradingError`. -/
def worldHydrationFail : LoginWorld :=
  { auth := envOkFirst, assetPos := .error .tradingError }

/-- A fresh agent constructed with credentials, before any login. -/
def stFresh : AgentState :=
  { username := some "user", password := some "pw" }

/-- C4 witness: concrete failed hydration leaves a clean state. -/
theorem login_hydration_exception_clean_witness :
    (TradingAgent.login stFresh none none 3 worldHydrationFail).2 = false
    ∧ (TradingAgent.login stFresh none none 3 worldHydrationFail).1.is_logged_in = false
    ∧ TradingAgent.get_account_info
        (TradingAgent.login stFresh none none 3 worldHydrationFail).1 = .empty
    ∧ (TradingAgent.login stFresh none none 3 worldHydrationFail).1.account_info
        = stFresh.account_info :=
  login_hydration_exception_clean stFresh none none 3 worldHydrationFail "VK"
    .tradingError rfl rfl rfl rfl

/-- The all-zero account overview with an empty currency tag: what the
hydration builds from a vendor entry whose optional fields are all
missing. -/
def zeroOverview : AccountOverview :=
  { Djzj := 0
    Dryk := 0
    Kqzj := 0
    Kyzj := 0
    Ljyk := 0
    Money_type := ""
    RMBZzc := 0
    Zjye := 0
    Zxsz := 0
    Zzc := 0 }

/-- C8: after a successful authentication, when the asset/position response
carries a `Data` array the login succeeds, the agent is logged in, and the
account snapshot gains exactly one entry (AccountOverview plus Portfolio,
via `buildAccountInfo`) per element of the array, in order; when the
response has no `"Data"` key nothing is added and login still succeeds.
Missing optional numeric fields of an entry default to zero (and the
currency tag to the empty string), as the all-fields-absent entry shows. -/
theorem login_hydrates_one_entry_per_data (st : AgentState) (u p : Option String)
    (maxRetries : Nat) (w : LoginWorld) (key : String) (resp : AssetPosResponse)
    (hcu : pyFalsyStr (pyOrStr u st.username) = false)
    (hcp : pyFalsyStr (pyOrStr p st.password) = false)
    (hauth : (authLoginTrace w.auth maxRetries).outcome = .ok key)
    (hresp : w.assetPos = .ok resp) :
    (∀ entries, resp.Data = some entries →
      (TradingAgent.login st u p maxRetries w).2 = true
      ∧ (TradingAgent.login st u p maxRetries w).1.is_logged_in = true
      ∧ (TradingAgent.login st u p maxRetries w).1.account_info
          = st.account_info
            ++ entries.map (buildAccountInfo ((pyOrStr u st.username).getD ""))
      ∧ (TradingAgent.login st u p maxRetries w).1.account_info.length
          = st.account_info.length + entries.length)
    ∧ (resp.Data = none →
      (TradingAgent.login st u p maxRetries w).2 = true
      ∧ (TradingAgent.login st u p maxRetries w).1.is_logged_in = true
      ∧ (TradingAgent.login st u p maxRetries w).1.account_info = st.account_info)
    ∧ buildOverview {} = zeroOverview := by
  refine ⟨?_, ?_, rfl⟩
  · intro entries hdata
    unfold TradingAgent.login
    simp only [hcu, hcp, Bool.or_self, Bool.or_false, Bool.false_or, if_false, hauth,
      get_asset_and_position, hresp, APIClient.init, hdata]
    refine ⟨rfl, rfl, ?_, ?_⟩
    · exact foldl_append_eq_map _ entries st.account_info
    · rw [foldl_append_eq_map _ entries st.account_info]
      simp
  · intro hdata
    unfold TradingAgent.login
    simp only [hcu, hcp, Bool.or_self, Bool.or_false, Bool.false_or, if_false, hauth,
      get_asset_and_position, hresp, APIClient.init, hdata]
    exact ⟨rfl, rfl, rfl⟩

/-- Vendor entry for the C8 witness: only `Zjye` and `Money_type` present;
every other numeric field absent, no positions. -/
def assetDataPartial : AssetData :=
  { Zjye := some 447, Money_type := some "RMB" }

/-- World for the C8 witness, with a one-element `Data` array. -/
def worldOneEntry : LoginWorld :=
  { auth := envOkFirst, assetPos := .ok { Data := some [assetDataPartial] } }

/-- World for the C8 witness, with no `"Data"` key in the response. -/
def worldNoData : LoginWorld :=
  { auth := envOkFirst, assetPos := .ok { Data := none } }

/-- C8 witness: one entry hydrated from a one-element `Data` array with the
missing numeric fields defaulted to zero, and a data-less response that
adds nothing while login still succeeds. -/
theorem login_hydrates_one_entry_per_data_witness :
    ((TradingAgent.login stFresh none none 3 worldOneEntry).2 = true
      ∧ (TradingAgent.login stFresh none none 3 worldOneEntry).1.is_logged_in = true
      ∧ (TradingAgent.login stFresh none none 3 worldOneEntry).1.account_info
          = [buildAccountInfo "user" assetDataPartial]
      ∧ (TradingAgent.login stFresh none none 3 worldOneEntry).1.account_info.length = 1)
    ∧ ((TradingAgent.login stFresh none none 3 worldNoData).2 = true
      ∧ (TradingAgent.login stFresh none none 3 worldNoData).1.account_info = []) := by
  have h1 := login_hydrates_one_entry_per_data stFresh none none 3 worldOneEntry
    "VK" { Data := some [assetDataPartial] } rfl rfl rfl rfl
  have h2 := login_hydrates_one_entry_per_data stFresh none none 3 worldNoData
    "VK" { Data := none } rfl rfl rfl rfl
  obtain ⟨ha, -, -⟩ := h1
  obtain ⟨-, hb, -⟩ := h2
  have ha' := ha [assetDataPartial] rfl
  have hb' := hb rfl
  exact ⟨⟨ha'.1, ha'.2.1, ha'.2.2.1, ha'.2.2.2⟩, hb'.1, hb'.2.2⟩

/-- C9: `TradingAgent.login` never removes existing entries from
`account_info`: whatever the credentials, the oracle outcomes and the prior
state, the resulting account list is the prior list with some (possibly
empty) tail appended, so entries hydrated by an earlier login stay in place
ahead of newly appended ones. -/
theorem login_account_info_append_only (st : AgentState) (u p : Option String)
    (maxRetries : Nat) (w : LoginWorld) :
    ∃ tail, (TradingAgent.login st u p maxRetries w).1.account_info
      = st.account_info ++ tail := by
  unfold TradingAgent.login
  by_cases hcred :
      (pyFalsyStr (pyOrStr u st.username) || pyFalsyStr (pyOrStr p st.password)) = true
  · exact ⟨[], by simp [hcred]⟩
  · rw [Bool.not_eq_true] at hcred
    simp only [hcred, if_false]
    cases houtcome : (authLoginTrace w.auth maxRetries).outcome with
    | ok key =>
      simp only [APIClient.init, get_asset_and_position]
      cases hassets : w.assetPos with
      | error e => exact ⟨[], by simp⟩
      | ok resp =>
        cases hdata : resp.Data with
        | none => exact ⟨[], by simp [hdata]⟩
        | some entries =>
          refine ⟨entries.map (buildAccountInfo ((pyOrStr u st.username).getD "")), ?_⟩
          simp only [hdata]
          exact foldl_append_eq_map _ entries st.account_info
    | rejected m => exact ⟨[], by simp⟩
    | wrappedErr i => exact ⟨[], by simp⟩
    | captchaErr n => exact ⟨[], by simp⟩

/-- An alphabetic character is not a digit. -/
theorem char_isAlpha_not_isDigit (c : Char) (h : c.isAlpha = true) : c.isDigit = false := by
  cases hd : c.isDigit
  · rfl
  · rw [char_isDigit_not_isAlpha c hd] at h
    cases h

/-- A pattern headed by a digit character never prefixes an all-alphabetic
symbol. -/
theorem pyStartswith_digit_head_alpha (d : Char) (rest code : List Char)
    (hd : d.isDigit = true) (ha : pyIsalpha code = true) :
    pyStartswith (d :: rest) code = false := by
  cases code with
  | nil => simp [pyIsalpha] at ha
  | cons c cs =>
    have hca : c.isAlpha = true := by
      simp only [pyIsalpha, List.all_cons, Bool.and_eq_true] at ha
      exact ha.2.1
    have hne : (d == c) = false := by
      cases hbe : d == c
      · rfl
      · exfalso
        have hdc : d = c := eq_of_beq hbe
        subst hdc
        rw [char_isDigit_not_isAlpha d hd] at hca
        cases hca
    simp [pyStartswith, List.isPrefixOf, hne]

/-- An all-alphabetic symbol is not all-digits. -/
theorem pyIsdigit_of_alpha (code : List Char) (ha : pyIsalpha code = true) :
    pyIsdigit code = false := by
  cases code with
  | nil => simp [pyIsalpha] at ha
  | cons c cs =>
    have hca : c.isAlpha = true := by
      simp only [pyIsalpha, List.all_cons, Bool.and_eq_true] at ha
      exact ha.2.1
    simp [pyIsdigit, List.all_cons, char_isAlpha_not_isDigit c hca]

/-- C6: counterexample — not every 5-digit numeric-only symbol maps to the
Hong Kong code: "00001" matches the Shenzhen prefix rule, which is checked
first, and resolves to "SA", not "HK00001"; "88888" resolves to the Beijing
code "BJ".  The catch-all clause is also false as stated: the 2-digit
numeric "12" (none of the claim's shapes) maps to "HK00012", not to the
"UNKNOWN" sentinel. -/
theorem get_market_code_hk_counterexample :
    get_market_code "00001".toList = "SA".toList
    ∧ get_market_code "00001".toList ≠ "HK00001".toList
    ∧ get_market_code "88888".toList = "BJ".toList
    ∧ get_market_code "88888".toList ≠ "HK88888".toList
    ∧ get_market_code "12".toList = "HK00012".toList
    ∧ get_market_code "12".toList ≠ "UNKNOWN".toList := by
  exact ⟨by decide, by decide, by decide, by decide, by decide, by decide⟩

/-- C6 (amended): `get_market_code` is a total function (never a crash)
resolving, in order: "600519" to the Shanghai code "HA"; "000001" to the
Shenzhen code "SA"; a numeric-only symbol of at most 5 digits that matches
neither the Shanghai/Shenzhen prefix lists nor the Beijing leading digits 8
and 4 to the Hong Kong code zero-padded to 5 digits; an all-alphabetic
symbol to the US code with the symbol uppercased (the numeric-prefix and
digits-only rules provably never fire on such a symbol); and a symbol
matching none of the rules to the "UNKNOWN" sentinel. -/
theorem get_market_code_resolution :
    get_market_code "600519".toList = "HA".toList
    ∧ get_market_code "000001".toList = "SA".toList
    ∧ get_market_code "00700".toList = "HK00700".toList
    ∧ (∀ code : List Char, pyStrip code = code → pyIsdigit code = true →
        code.length ≤ 5 →
        (["600", "601", "603", "605", "688"].any fun p => pyStartswith p.toList code) = false →
        (["000", "001", "002", "003", "300", "301"].any fun p => pyStartswith p.toList code) = false →
        pyStartswith "8".toList code = false →
        pyStartswith "4".toList code = false →
        get_market_code code = "HK".toList ++ pyZfill 5 code)
    ∧ (∀ code : List Char, pyStrip code = code → pyIsalpha code = true →
        get_market_code code = "US:".toList ++ pyUpper code)
    ∧ (∀ code : List Char, pyStrip code = code →
        (["600", "601", "603", "605", "688"].any fun p => pyStartswith p.toList code) = false →
        (["000", "001", "002", "003", "300", "301"].any fun p => pyStartswith p.toList code) = false →
        pyStartswith "8".toList code = false →
        pyStartswith "4".toList code = false →
        (pyIsdigit code && decide (code.length ≤ 5)) = false →
        pyIsalpha code = false →
        get_market_code code = "UNKNOWN".toList) := by
  refine ⟨by decide, by decide, by decide, ?_, ?_, ?_⟩
  · intro code hstrip hdig hlen h1 h2 h3 h4
    unfold get_market_code
    simp only [hstrip]
    rw [h1, h2, h3, h4, hdig, decide_eq_true hlen]
    simp
  · intro code hstrip ha
    have c600 : pyStartswith ['6', '0', '0'] code = false :=
      pyStartswith_digit_head_alpha '6' ['0', '0'] code (by decide) ha
    have c601 : pyStartswith ['6', '0', '1'] code = false :=
      pyStartswith_digit_head_alpha '6' ['0', '1'] code (by decide) ha
    have c603 : pyStartswith ['6', '0', '3'] code = false :=
      pyStartswith_digit_head_alpha '6' ['0', '3'] code (by decide) ha
    have c605 : pyStartswith ['6', '0', '5'] code = false :=
      pyStartswith_digit_head_alpha '6' ['0', '5'] code (by decide) ha
    have c688 : pyStartswith ['6', '8', '8'] code = false :=
      pyStartswith_digit_head_alpha '6' ['8', '8'] code (by decide) ha
    have c000 : pyStartswith ['0', '0', '0'] code = false :=
      pyStartswith_digit_head_alpha '0' ['0', '0'] code (by decide) ha
    have c001 : pyStartswith ['0', '0', '1'] code = false :=
      pyStartswith_digit_head_alpha '0' ['0', '1'] code (by decide) ha
    have c002 : pyStartswith ['0', '0', '2'] code = false :=
      pyStartswith_digit_head_alpha '0' ['0', '2'] code (by decide) ha
    have c003 : pyStartswith ['0', '0', '3'] code = false :=
      pyStartswith_digit_head_alpha '0' ['0', '3'] code (by decide) ha
    have c300 : pyStartswith ['3', '0', '0'] code = false :=
      pyStartswith_digit_head_alpha '3' ['0', '0'] code (by decide) ha
    have c301 : pyStartswith ['3', '0', '1'] code = false :=
      pyStartswith_digit_head_alpha '3' ['0', '1'] code (by decide) ha
    have c8 : pyStartswith ['8'] code = false :=
      pyStartswith_digit_head_alpha '8' [] code (by decide) ha
    have c4 : pyStartswith ['4'] code = false :=
      pyStartswith_digit_head_alpha '4' [] code (by decide) ha
    have cdig : pyIsdigit code = false := pyIsdigit_of_alpha code ha
    unfold get_market_code
    simp only [hstrip]
    simp [c600, c601, c603, c605, c688, c000, c001, c002, c003, c300, c301,
      c8, c4, cdig, ha]
  · intro code hstrip h1 h2 h3 h4 h5 h6
    unfold get_market_code
    simp only [hstrip]
    rw [h1, h2, h3, h4, h5, h6]
    simp

/-- C6 witness: the general clauses of the resolution theorem evaluated on
fresh concrete symbols — the 5-digit "12345" (Hong Kong), the alphabetic
"tsla" (US, uppercased), and the mixed "a1" (unknown). -/
theorem get_market_code_resolution_witness :
    get_market_code "12345".toList = "HK12345".toList
    ∧ get_market_code "tsla".toList = "US:TSLA".toList
    ∧ get_market_code "a1".toList = "UNKNOWN".toList := by
  obtain ⟨-, -, -, hk, us, unk⟩ := get_market_code_resolution
  refine ⟨?_, ?_, ?_⟩
  · have h := hk "12345".toList (by decide) (by decide) (by decide)
      (by decide) (by decide) (by decide) (by decide)
    exact h.trans (by decide)
  · have h := us "tsla".toList (by decide) (by decide)
    exact h.trans (by decide)
  · have h := unk "a1".toList (by decide) (by decide) (by decide)
      (by decide) (by decide) (by decide) (by decide)
    exact h.trans (by decide)

end Emta
